import Mathlib

/-!
Verification development for the esp32-geo sensor transmitter.

The TypeScript sources are shallowly embedded as pure Lean functions:

* `ESP32Client.sendData` / `ESP32Client.testConnection` embed
  `client/src/lib/esp32-client.ts`;
* `testEsp32Route`, `sensorDataRouteLimit` embed the handlers in
  `server/routes.ts`;
* `MemStorage` and its operations embed `server/storage.ts`;
* `UIState`, `sendDataToESP32`, `toggleTransmission`, `loopStep` embed the
  transmission-loop logic of the `SensorTransmitter` page component together
  with the permission bookkeeping of `use-sensors.ts`.

JavaScript numbers are modelled as `ℚ` (for sensor readings and rates) and
`Nat` (for counters, HTTP status codes and millisecond timestamps).  A
`fetch` call is modelled as an `Except String Nat`: either a network-level
fault carrying the thrown error message, or an HTTP response carrying its
status code.  Asynchronous effects are modelled by explicit state passing;
the in-flight sends of the transmission loop are modelled by a pending
counter on the loop state, with completion as a separate event.
-/

namespace Esp32Geo

/-! ## Data model (shared/schema.ts and the client-side interfaces) -/

/-- Connection state of the transmission loop
(`'connected' | 'disconnected' | 'connecting'` in the page component). -/
inductive ConnectionStatus
  | connected
  | disconnected
  | connecting
deriving DecidableEq, Repr

/-- Kind of a surfaced status message (`'success' | 'error'`). -/
inductive MessageType
  | success
  | error
deriving DecidableEq, Repr

/-- Permission state per sensor capability (use-sensors.ts). -/
inductive PermissionState
  | granted
  | denied
  | prompt
  | unknown
deriving DecidableEq, Repr

/-- `SensorPermissions` from use-sensors.ts. -/
structure SensorPermissions where
  gps : PermissionState
  motion : PermissionState
deriving DecidableEq, Repr

/-- `GPSData` from use-sensors.ts. -/
structure GPSData where
  latitude : ℚ
  longitude : ℚ
  accuracy : Option ℚ
  timestamp : Nat
deriving DecidableEq, Repr

/-- `AccelerometerData` from use-sensors.ts. -/
structure AccelerometerData where
  x : ℚ
  y : ℚ
  z : ℚ
  timestamp : Nat
deriving DecidableEq, Repr

/-- The `gps` component of `ESP32Data` (esp32-client.ts). -/
structure GPSReading where
  latitude : ℚ
  longitude : ℚ
  accuracy : Option ℚ
deriving DecidableEq, Repr

/-- The `accelerometer` component of `ESP32Data` (esp32-client.ts). -/
structure AccelReading where
  x : ℚ
  y : ℚ
  z : ℚ
deriving DecidableEq, Repr

/-- `ESP32Data`, the payload sent to the device (esp32-client.ts). -/
structure ESP32Data where
  gps : GPSReading
  accelerometer : AccelReading
  timestamp : Nat
deriving DecidableEq, Repr

/-- Result type of `ESP32Client.sendData`:
`{ success: boolean; error?: string }`. -/
structure SendResult where
  success : Bool
  error : Option String
deriving DecidableEq, Repr

/-! ## Network environment

A `fetch` to `http://{address}/sensor-data` either throws (network fault,
timeout, CORS rejection, ...), modelled as `.error msg` with `msg` the
thrown error's message, or resolves to an HTTP response, modelled as
`.ok status`.  The proxy request of `apiRequest('POST', '/api/test-esp32',
...)` may itself fault; when it reaches the server, the server performs its
own fetch to the device, so the proxy outcome carries a nested fetch
outcome.  Responses are allowed to depend on the address and payload. -/

/-- Outcomes of the network calls an `ESP32Client.sendData` invocation can
make.  `direct` is the browser's fetch straight to the device; `proxy` is
the request to the app's own server, carrying the server's fetch outcome to
the device on success. -/
structure NetEnv where
  direct : String → ESP32Data → Except String Nat
  proxy : String → ESP32Data → Except String (Except String Nat)

/-- `response.ok`: the HTTP status is in the 2xx range. -/
def statusOk (status : Nat) : Bool :=
  200 ≤ status && status ≤ 299

/-- Whether `pattern` is a prefix of `target`, on character lists. -/
def startsWithChars : List Char → List Char → Bool
  | [], _ => true
  | _ :: _, [] => false
  | p :: ps, c :: cs => p == c && startsWithChars ps cs

/-- Whether `pattern` occurs as a contiguous run inside `target`. -/
def containsSub (pattern : List Char) : List Char → Bool
  | [] => startsWithChars pattern []
  | c :: rest => startsWithChars pattern (c :: rest) || containsSub pattern rest

/-- `errorMessage.includes('CORS')`: the message contains `CORS` as a
substring. -/
def includesCORS (msg : String) : Bool :=
  containsSub "CORS".data msg.data

/-- JSON body of a `/api/test-esp32` response (server/routes.ts); absent
fields are `none`. -/
structure RelayResponse where
  status : Nat
  success : Option Bool
  error : Option String
  message : Option String
deriving DecidableEq, Repr

/-- The `/api/test-esp32` handler of server/routes.ts.  `hasIpAddress` and
`hasData` model the truthiness of the destructured request-body fields;
`esp32Fetch` is the outcome of the server's fetch to the device.  A thrown
`Error`'s message is reported as-is (non-`Error` throws would report
`Failed to connect to ESP32`; fetch rejections are `Error`s, so the fault
message is carried through). -/
def testEsp32Route (hasIpAddress hasData : Bool) (esp32Fetch : Except String Nat) :
    RelayResponse :=
  if hasIpAddress = false ∨ hasData = false then
    { status := 400, success := none,
      error := some "IP address and data are required", message := none }
  else
    match esp32Fetch with
    | .ok status =>
        if statusOk status then
          { status := 200, success := some true, error := none,
            message := some "ESP32 communication successful" }
        else
          { status := status, success := some false,
            error := some ("ESP32 responded with status " ++ toString status),
            message := none }
    | .error m =>
        { status := 500, success := some false, error := some m, message := none }

/-- Modelled from the spec: `apiRequest` (client/src/lib/queryClient.ts is
not under src/).  Per §6 and §4.2 of the spec, a relay failure must surface
the relay's reported error to the caller, so `apiRequest` is modelled as
throwing only when the network call to the app's own server faults, and
otherwise returning the JSON body of the server's response (here computed by
the embedded `/api/test-esp32` handler, with both body fields present). -/
def apiRequestTestEsp32 (env : NetEnv) (ipAddress : String) (data : ESP32Data) :
    Except String RelayResponse :=
  match env.proxy ipAddress data with
  | .ok esp32Fetch => .ok (testEsp32Route true true esp32Fetch)
  | .error m => .error m

namespace ESP32Client

/-- `ESP32Client.sendData` (esp32-client.ts): try the direct fetch to the
device; on HTTP success return success; on a non-2xx status or a fetch
fault, fall back to the proxy, returning the proxy body's `success`/`error`
fields; if the proxy call itself faults, report failure with the original
direct-call error message, mapped to a fixed explanation when it looks like
a CORS rejection. -/
def sendData (data : ESP32Data) (ipAddress : String) (env : NetEnv) : SendResult :=
  let onDirectFailure (errorMessage : String) : SendResult :=
    match apiRequestTestEsp32 env ipAddress data with
    | .ok result => { success := result.success.getD false, error := result.error }
    | .error _ =>
        { success := false,
          error := some (if includesCORS errorMessage then
            "CORS error - ESP32 may not allow browser requests"
          else errorMessage) }
  match env.direct ipAddress data with
  | .ok status =>
      if statusOk status then { success := true, error := none }
      else onDirectFailure ("ESP32 responded with status " ++ toString status)
  | .error m => onDirectFailure m

/-- `ESP32Client.testConnection` (esp32-client.ts): send a probe payload
with zero coordinates, null accuracy, zero acceleration and the current
time. -/
def testConnection (ipAddress : String) (now : Nat) (env : NetEnv) : SendResult :=
  let testData : ESP32Data :=
    { gps := { latitude := 0, longitude := 0, accuracy := none },
      accelerometer := { x := 0, y := 0, z := 0 },
      timestamp := now }
  sendData testData ipAddress env

end ESP32Client

/-! ## Transmission loop state (SensorTransmitter page component) -/

/-- The `transmissionStats` React state of the page component. -/
structure TransmissionStats where
  totalTransmissions : Nat
  successfulTransmissions : Nat
  successRate : ℚ
deriving DecidableEq, Repr

/-- Initial statistics (`{ totalTransmissions: 0, successfulTransmissions: 0,
successRate: 0 }`). -/
def initialStats : TransmissionStats :=
  { totalTransmissions := 0, successfulTransmissions := 0, successRate := 0 }

/-- The `setTransmissionStats(prev => ...)` updater of `sendDataToESP32`. -/
def updateStats (prev : TransmissionStats) (success : Bool) : TransmissionStats :=
  { totalTransmissions := prev.totalTransmissions + 1,
    successfulTransmissions :=
      prev.successfulTransmissions + (if success then 1 else 0),
    successRate :=
      ((prev.successfulTransmissions + (if success then 1 else 0) : Nat) : ℚ) /
        ((prev.totalTransmissions + 1 : Nat) : ℚ) * 100 }

/-- The React state of the `SensorTransmitter` page component relevant to the
transmission loop, together with the sensor-hook state it consumes
(`permissions` and the per-sensor error strings of use-sensors.ts). -/
structure UIState where
  esp32IpAddress : String
  isTransmitting : Bool
  connectionStatus : ConnectionStatus
  lastTransmission : Option Nat
  transmissionStats : TransmissionStats
  statusMessage : Option (MessageType × String)
  permissions : SensorPermissions
  gpsError : Option String
  motionError : Option String
deriving DecidableEq, Repr

/-- Initial component state: default IP, not transmitting, disconnected, no
stats, unknown permissions. -/
def initialUIState : UIState :=
  { esp32IpAddress := "192.168.1.50",
    isTransmitting := false,
    connectionStatus := .disconnected,
    lastTransmission := none,
    transmissionStats := initialStats,
    statusMessage := none,
    permissions := { gps := .unknown, motion := .unknown },
    gpsError := none,
    motionError := none }

/-- A best-effort request made to the persistence collaborator by
`sendDataToESP32` (`POST /api/sensor-data` and
`POST /api/transmission-logs`). -/
inductive PersistCall
  | postSensorData (latitude longitude : ℚ) (accuracy : Option ℚ)
      (accelerometerX accelerometerY accelerometerZ : ℚ)
  | postTransmissionLog (esp32IpAddress : String) (success : Bool)
      (errorMessage : Option String)
deriving DecidableEq, Repr

/-- JavaScript `opt || fallback` on an optional string: the fallback is used
when the value is absent or empty (falsy). -/
def jsOrString (opt : Option String) (fallback : String) : String :=
  match opt with
  | some m => if m = "" then fallback else m
  | none => fallback

/-- The continuation of `sendDataToESP32` after `await esp32Client.sendData`
resolves (lines updating connection status, the status message, the
persistence log and the statistics).  `persistFirstOk` tells whether the
first persistence request succeeded; when it throws, the second request is
never attempted and the error is swallowed.  Returns the updated state and
the persistence requests that were attempted. -/
def applySendResult (gpsData : GPSData) (accelerometerData : AccelerometerData)
    (result : SendResult) (now : Nat) (persistFirstOk : Bool) (s : UIState) :
    UIState × List PersistCall :=
  let s1 :=
    if result.success then
      { s with connectionStatus := .connected,
               lastTransmission := some now,
               statusMessage := some (.success, "Data transmitted successfully") }
    else
      { s with connectionStatus := .disconnected,
               statusMessage :=
                 some (.error, jsOrString result.error "Failed to transmit data") }
  let calls :=
    PersistCall.postSensorData gpsData.latitude gpsData.longitude gpsData.accuracy
        accelerometerData.x accelerometerData.y accelerometerData.z ::
      (if persistFirstOk then
        [PersistCall.postTransmissionLog s.esp32IpAddress result.success result.error]
      else [])
  let s2 := { s1 with transmissionStats := updateStats s1.transmissionStats result.success }
  (s2, calls)

/-- One whole synchronous run of `sendDataToESP32`: skip when the client or
either sensor sample is missing; otherwise mark the connection as
connecting, send the combined payload, and apply the result.  Returns the
updated state and the persistence requests attempted. -/
def sendDataToESP32 (esp32Client : Bool) (gpsData : Option GPSData)
    (accelerometerData : Option AccelerometerData) (env : NetEnv) (now : Nat)
    (persistFirstOk : Bool) (s : UIState) : UIState × List PersistCall :=
  match esp32Client, gpsData, accelerometerData with
  | true, some g, some a =>
      let data : ESP32Data :=
        { gps := { latitude := g.latitude, longitude := g.longitude,
                   accuracy := g.accuracy },
          accelerometer := { x := a.x, y := a.y, z := a.z },
          timestamp := now }
      let s1 := { s with connectionStatus := .connecting }
      let result := ESP32Client.sendData data s.esp32IpAddress env
      applySendResult g a result now persistFirstOk s1
  | _, _, _ => (s, [])

/-! ## Permission requests (use-sensors.ts) and the start/stop toggle -/

/-- `requestGPSPermission`: on success the gps permission becomes granted and
the gps error is cleared; every failure path records a message and marks the
permission denied.  `outcome` is `none` on success and carries the
human-readable reason on failure. -/
def requestGPSPermission (outcome : Option String) (s : UIState) : UIState :=
  match outcome with
  | none =>
      { s with permissions := { s.permissions with gps := .granted },
               gpsError := none }
  | some msg =>
      { s with permissions := { s.permissions with gps := .denied },
               gpsError := some msg }

/-- `requestMotionPermission`: same shape as the gps request. -/
def requestMotionPermission (outcome : Option String) (s : UIState) : UIState :=
  match outcome with
  | none =>
      { s with permissions := { s.permissions with motion := .granted },
               motionError := none }
  | some msg =>
      { s with permissions := { s.permissions with motion := .denied },
               motionError := some msg }

/-- `toggleTransmission` of the page component.  The handler closes over the
`permissions` value of the render it was created in, so every check inside
one invocation reads the value captured on entry (`permissions0`), even
after the awaited permission requests have updated the state.  `gpsOutcome`
and `motionOutcome` are the environment's answers to the permission requests
(used only when the corresponding request is actually made). -/
def toggleTransmission (gpsOutcome motionOutcome : Option String) (s : UIState) :
    UIState :=
  if s.isTransmitting = false then
    let permissions0 := s.permissions
    let s1 := if permissions0.gps ≠ .granted then requestGPSPermission gpsOutcome s else s
    let s2 :=
      if permissions0.motion ≠ .granted then requestMotionPermission motionOutcome s1
      else s1
    if permissions0.gps = .granted ∧ permissions0.motion = .granted then
      { s2 with isTransmitting := true,
                statusMessage := some (.success, "Transmission started") }
    else
      { s2 with statusMessage := some (.error, "Sensor permissions required") }
  else
    { s with isTransmitting := false,
             connectionStatus := .disconnected,
             statusMessage := some (.success, "Transmission stopped") }

/-! ## Event-level model of the running loop

The periodic timer only exists while `isTransmitting` holds (its `useEffect`
clears the interval synchronously when transmission stops), so a tick can
only initiate a send while transmitting.  A send that has been initiated
stays in flight across other events; its completion runs the post-`await`
continuation of `sendDataToESP32` unconditionally — the source contains no
re-check of `isTransmitting` after the `await`. -/

/-- Loop state: the component state plus the number of sends in flight. -/
structure LoopState where
  ui : UIState
  pendingSends : Nat
deriving DecidableEq, Repr

/-- Events driving the loop: a timer tick (initiating a send when the client
and both samples are available), the completion of an in-flight send, and a
press of the start/stop button. -/
inductive LoopEvent
  | tick (esp32Client : Bool) (gpsData : Option GPSData)
      (accelerometerData : Option AccelerometerData)
  | sendComplete (gpsData : GPSData) (accelerometerData : AccelerometerData)
      (result : SendResult) (now : Nat) (persistFirstOk : Bool)
  | toggle (gpsOutcome motionOutcome : Option String)

/-- Small-step semantics of the loop. -/
def loopStep (s : LoopState) (e : LoopEvent) : LoopState :=
  match e with
  | .tick esp32Client gpsData accelerometerData =>
      match s.ui.isTransmitting, esp32Client, gpsData, accelerometerData with
      | true, true, some _, some _ =>
          { ui := { s.ui with connectionStatus := .connecting },
            pendingSends := s.pendingSends + 1 }
      | _, _, _, _ => s
  | .sendComplete g a result now persistFirstOk =>
      if s.pendingSends = 0 then s
      else
        { ui := (applySendResult g a result now persistFirstOk s.ui).1,
          pendingSends := s.pendingSends - 1 }
  | .toggle gpsOutcome motionOutcome =>
      { s with ui := toggleTransmission gpsOutcome motionOutcome s.ui }

/-- Initial loop state: fresh component, nothing in flight. -/
def initialLoopState : LoopState :=
  { ui := initialUIState, pendingSends := 0 }

/-- Run the loop over a sequence of events. -/
def loopRun (s : LoopState) (events : List LoopEvent) : LoopState :=
  events.foldl loopStep s

/-! ## In-memory persistence store (server/storage.ts) -/

/-- A stored `users` row (shared/schema.ts). -/
structure User where
  id : Nat
  username : String
  password : String
deriving DecidableEq, Repr

/-- `InsertUser`: the row without its server-assigned id. -/
structure InsertUser where
  username : String
  password : String
deriving DecidableEq, Repr

/-- A stored `sensor_data` row (shared/schema.ts). -/
structure SensorData where
  id : Nat
  latitude : ℚ
  longitude : ℚ
  accuracy : Option ℚ
  accelerometerX : ℚ
  accelerometerY : ℚ
  accelerometerZ : ℚ
  timestamp : Nat
deriving DecidableEq, Repr

/-- `InsertSensorData`: the row without id and timestamp. -/
structure InsertSensorData where
  latitude : ℚ
  longitude : ℚ
  accuracy : Option ℚ
  accelerometerX : ℚ
  accelerometerY : ℚ
  accelerometerZ : ℚ
deriving DecidableEq, Repr

/-- A stored `transmission_logs` row (shared/schema.ts). -/
structure TransmissionLog where
  id : Nat
  esp32IpAddress : String
  sensorDataId : Option Nat
  success : Bool
  errorMessage : Option String
  timestamp : Nat
deriving DecidableEq, Repr

/-- `InsertTransmissionLog`: the row without id and timestamp. -/
structure InsertTransmissionLog where
  esp32IpAddress : String
  sensorDataId : Option Nat
  success : Bool
  errorMessage : Option String
deriving DecidableEq, Repr

/-- JavaScript `Map.set`: replace the value in place when the key is already
present, otherwise append the binding (iteration is in insertion order). -/
def mapSet {β : Type} (m : List (Nat × β)) (k : Nat) (v : β) : List (Nat × β) :=
  if k ∈ m.map Prod.fst then
    m.map (fun p => if p.1 = k then (k, v) else p)
  else m ++ [(k, v)]

/-- `MemStorage`: three insertion-ordered maps and their id counters. -/
structure MemStorage where
  users : List (Nat × User)
  sensorData : List (Nat × SensorData)
  transmissionLogs : List (Nat × TransmissionLog)
  currentUserId : Nat
  currentSensorDataId : Nat
  currentTransmissionLogId : Nat
deriving DecidableEq, Repr

namespace MemStorage

/-- The constructor of `MemStorage`: empty maps, all counters at 1. -/
def init : MemStorage :=
  { users := [], sensorData := [], transmissionLogs := [],
    currentUserId := 1, currentSensorDataId := 1, currentTransmissionLogId := 1 }

/-- `createUser`: take the current id (post-incrementing the counter), build
the row and store it under that id. -/
def createUser (s : MemStorage) (insertUser : InsertUser) : User × MemStorage :=
  let id := s.currentUserId
  let user : User :=
    { id := id, username := insertUser.username, password := insertUser.password }
  (user, { s with users := mapSet s.users id user, currentUserId := id + 1 })

/-- `createSensorData`: same pattern, stamping the row with the current
time. -/
def createSensorData (s : MemStorage) (insertData : InsertSensorData) (now : Nat) :
    SensorData × MemStorage :=
  let id := s.currentSensorDataId
  let data : SensorData :=
    { id := id, latitude := insertData.latitude, longitude := insertData.longitude,
      accuracy := insertData.accuracy, accelerometerX := insertData.accelerometerX,
      accelerometerY := insertData.accelerometerY,
      accelerometerZ := insertData.accelerometerZ, timestamp := now }
  (data, { s with sensorData := mapSet s.sensorData id data,
                  currentSensorDataId := id + 1 })

/-- `createTransmissionLog`: same pattern, stamping the row with the current
time. -/
def createTransmissionLog (s : MemStorage) (insertLog : InsertTransmissionLog)
    (now : Nat) : TransmissionLog × MemStorage :=
  let id := s.currentTransmissionLogId
  let log : TransmissionLog :=
    { id := id, esp32IpAddress := insertLog.esp32IpAddress,
      sensorDataId := insertLog.sensorDataId, success := insertLog.success,
      errorMessage := insertLog.errorMessage, timestamp := now }
  (log, { s with transmissionLogs := mapSet s.transmissionLogs id log,
                 currentTransmissionLogId := id + 1 })

end MemStorage

/-- The `sort((a, b) => b.timestamp.getTime() - a.timestamp.getTime())` of
storage.ts: a stable sort putting larger timestamps first. -/
def sortByTimestampDesc (l : List SensorData) : List SensorData :=
  l.mergeSort (fun a b => decide (b.timestamp ≤ a.timestamp))

/-- `MemStorage.getRecentSensorData`: all stored samples, sorted newest
first, truncated to `limit`. -/
def MemStorage.getRecentSensorData (s : MemStorage) (limit : Nat) : List SensorData :=
  (sortByTimestampDesc (s.sensorData.map Prod.snd)).take limit

/-- Response shape of `MemStorage.getTransmissionStats`. -/
structure TransmissionStatsResponse where
  totalTransmissions : Nat
  successfulTransmissions : Nat
  successRate : ℚ
  lastTransmission : Option Nat
deriving DecidableEq, Repr

/-- `MemStorage.getTransmissionStats`: aggregate over all stored logs;
`successRate` is `successful/total*100` when any log exists, else `0`;
`lastTransmission` is the newest log's timestamp when any log exists. -/
def MemStorage.getTransmissionStats (s : MemStorage) : TransmissionStatsResponse :=
  let logs := s.transmissionLogs.map Prod.snd
  let totalTransmissions := logs.length
  let successfulTransmissions := (logs.filter (fun log => log.success)).length
  let successRate : ℚ :=
    if totalTransmissions > 0 then
      ((successfulTransmissions : ℚ) / (totalTransmissions : ℚ)) * 100
    else 0
  let lastTransmission :=
    ((logs.mergeSort (fun a b => decide (b.timestamp ≤ a.timestamp))).head?).map
      (fun log => log.timestamp)
  { totalTransmissions := totalTransmissions,
    successfulTransmissions := successfulTransmissions,
    successRate := successRate,
    lastTransmission := lastTransmission }

/-- Create operations of the storage interface (the only mutators). -/
inductive StorageOp
  | createUser (u : InsertUser)
  | createSensorData (d : InsertSensorData) (now : Nat)
  | createTransmissionLog (l : InsertTransmissionLog) (now : Nat)

/-- Apply one create operation, discarding the returned row. -/
def applyOp (s : MemStorage) (op : StorageOp) : MemStorage :=
  match op with
  | .createUser u => (s.createUser u).2
  | .createSensorData d now => (s.createSensorData d now).2
  | .createTransmissionLog l now => (s.createTransmissionLog l now).2

/-- Run a sequence of create operations against a fresh store. -/
def runOps (ops : List StorageOp) : MemStorage :=
  ops.foldl applyOp MemStorage.init

/-! ## The `GET /api/sensor-data` limit parameter (server/routes.ts) -/

/-- Decimal digit value of a character, if any. -/
def digitVal (c : Char) : Option Nat :=
  if '0' ≤ c ∧ c ≤ '9' then some (c.toNat - '0'.toNat) else none

/-- Hexadecimal digit value of a character, if any. -/
def hexDigitVal (c : Char) : Option Nat :=
  if '0' ≤ c ∧ c ≤ '9' then some (c.toNat - '0'.toNat)
  else if 'a' ≤ c ∧ c ≤ 'f' then some (c.toNat - 'a'.toNat + 10)
  else if 'A' ≤ c ∧ c ≤ 'F' then some (c.toNat - 'A'.toNat + 10)
  else none

/-- Accumulate the longest prefix of digits in the given base; `none` when no
digit was consumed at all. -/
def parseDigits (base : Nat) (cs : List Char) (acc : Nat) (seen : Bool) : Option Nat :=
  match cs with
  | [] => if seen then some acc else none
  | c :: rest =>
      match (if base = 16 then hexDigitVal c else digitVal c) with
      | some d => parseDigits base rest (acc * base + d) true
      | none => if seen then some acc else none

/-- Whitespace characters skipped by `parseInt` (the common ASCII ones). -/
def isJsWhitespace (c : Char) : Bool :=
  c = ' ' ∨ c = '\t' ∨ c = '\n' ∨ c = '\r'

/-- JavaScript `parseInt(str)` without an explicit radix: skip leading
whitespace, read an optional sign, then either a `0x`/`0X` hexadecimal
prefix or decimal digits; `none` models `NaN`.  Trailing non-digits are
ignored. -/
def jsParseIntChars (chars : List Char) : Option Int :=
  let cs := chars.dropWhile isJsWhitespace
  let signed : Int × List Char :=
    match cs with
    | '-' :: rest => (-1, rest)
    | '+' :: rest => (1, rest)
    | _ => (1, cs)
  match signed.2 with
  | '0' :: 'x' :: rest => (parseDigits 16 rest 0 false).map (fun n => signed.1 * n)
  | '0' :: 'X' :: rest => (parseDigits 16 rest 0 false).map (fun n => signed.1 * n)
  | _ => (parseDigits 10 signed.2 0 false).map (fun n => signed.1 * n)

/-- `parseInt(req.query.limit as string)`: an absent parameter is
`undefined`, which `parseInt` coerces to the string `undefined` (yielding
`NaN`). -/
def jsParseInt (q : Option String) : Option Int :=
  match q with
  | none => jsParseIntChars "undefined".data
  | some str => jsParseIntChars str.data

/-- JavaScript `v || fallback` on a parsed number: `NaN` and `0` are falsy. -/
def jsOrInt (v : Option Int) (fallback : Int) : Int :=
  match v with
  | none => fallback
  | some n => if n = 0 then fallback else n

/-- The limit computed by the `GET /api/sensor-data` handler:
`parseInt(req.query.limit as string) || 10`. -/
def sensorDataRouteLimit (q : Option String) : Int :=
  jsOrInt (jsParseInt q) 10

/-! ## Derived observations used by the theorems below -/

/-- The error message with which the direct device call of `sendData` fails,
read off the environment (`none` when the direct call succeeds): the thrown
status error for a non-2xx response, or the fetch fault's message. -/
def directFailMsg (env : NetEnv) (ipAddress : String) (data : ESP32Data) :
    Option String :=
  match env.direct ipAddress data with
  | .ok status =>
      if statusOk status then none
      else some ("ESP32 responded with status " ++ toString status)
  | .error m => some m

/-- The error the `/api/test-esp32` relay reports for a given server-side
fetch outcome (`none` when the relay reports success). -/
def relayError (esp32Fetch : Except String Nat) : Option String :=
  match esp32Fetch with
  | .ok status =>
      if statusOk status then none
      else some ("ESP32 responded with status " ++ toString status)
  | .error m => some m

/-- The statistics invariant of the spec: `successful <= total`, and
`success_rate` is `successful/total*100` when `total > 0`, else `0`. -/
def statsInvariant (st : TransmissionStats) : Prop :=
  st.successfulTransmissions ≤ st.totalTransmissions ∧
  st.successRate =
    if 0 < st.totalTransmissions then
      (st.successfulTransmissions : ℚ) / (st.totalTransmissions : ℚ) * 100
    else 0

/-- Well-formedness of one id-keyed map of `MemStorage`: the keys, in
insertion order, are exactly `1, 2, ..., current - 1`; consequently they
start at 1, are strictly increasing and duplicate-free, and the next id to
be assigned is fresh. -/
def idsOk (keys : List Nat) (current : Nat) : Prop :=
  keys = List.range' 1 (current - 1) ∧ 1 ≤ current ∧
  keys.Pairwise (· < ·) ∧ current ∉ keys

/-- One create operation extends the corresponding map by a new binding at
the end and touches no existing binding. -/
def noOverwriteStep (s : MemStorage) (op : StorageOp) : Prop :=
  match op with
  | .createUser u =>
      (applyOp s (.createUser u)).users
        = s.users ++ [(s.currentUserId, (s.createUser u).1)]
  | .createSensorData d now =>
      (applyOp s (.createSensorData d now)).sensorData
        = s.sensorData ++ [(s.currentSensorDataId, (s.createSensorData d now).1)]
  | .createTransmissionLog l now =>
      (applyOp s (.createTransmissionLog l now)).transmissionLogs
        = s.transmissionLogs ++ [(s.currentTransmissionLogId, (s.createTransmissionLog l now).1)]

/-- Core id invariant of the store: each map's keys, in insertion order, are
exactly `1 .. n` and the corresponding counter stands at `n + 1`. -/
def rangeInvariant (s : MemStorage) : Prop :=
  (∃ n, s.currentUserId = n + 1 ∧ s.users.map Prod.fst = List.range' 1 n) ∧
  (∃ n, s.currentSensorDataId = n + 1 ∧ s.sensorData.map Prod.fst = List.range' 1 n) ∧
  (∃ n, s.currentTransmissionLogId = n + 1 ∧
    s.transmissionLogs.map Prod.fst = List.range' 1 n)

/-! ## Concrete inputs used by counterexamples and witnesses -/

/-- A concrete location sample. -/
def gSample : GPSData :=
  { latitude := 48, longitude := 2, accuracy := some 5, timestamp := 1000 }

/-- A concrete motion sample. -/
def aSample : AccelerometerData :=
  { x := 0, y := 1, z := 2, timestamp := 1000 }

/-- The combined payload of the two samples above. -/
def dataSample : ESP32Data :=
  { gps := { latitude := 48, longitude := 2, accuracy := some 5 },
    accelerometer := { x := 0, y := 1, z := 2 },
    timestamp := 1000 }

/-- Environment where the direct call faults and the relay reports failure. -/
def dualFailEnv : NetEnv :=
  { direct := fun _ _ => .error "boom",
    proxy := fun _ _ => .ok (.error "relay down") }

/-- Environment where the direct call faults and the proxy request itself
faults. -/
def proxyDownEnv : NetEnv :=
  { direct := fun _ _ => .error "boom",
    proxy := fun _ _ => .error "proxy down" }

/-- Environment where the direct call faults with a CORS-looking message and
the proxy request itself faults. -/
def corsFailEnv : NetEnv :=
  { direct := fun _ _ => .error "CORS policy blocked the request",
    proxy := fun _ _ => .error "proxy down" }

/-- Environment where the direct call faults and the relay succeeds. -/
def relayOkEnv : NetEnv :=
  { direct := fun _ _ => .error "boom",
    proxy := fun _ _ => .ok (.ok 200) }

/-- Component state whose location permission has been denied (motion
granted). -/
def deniedGpsState : UIState :=
  { initialUIState with permissions := { gps := .denied, motion := .granted } }

/-- A run that starts the loop (the first toggle performs the permission
requests and is refused on the captured state, the second one starts), lets
one tick initiate a send, then stops the loop before the send completes. -/
def stopWhileInFlight : List LoopEvent :=
  [.toggle none none, .toggle none none,
   .tick true (some gSample) (some aSample), .toggle none none]

/-- A loop state that has stopped transmitting while one send is still in
flight. -/
def stoppedPending : LoopState :=
  { ui := initialUIState, pendingSends := 1 }

/-! ## Theorems -/

/-- Completing a send always runs the statistics updater on the current
statistics, whatever the result. -/
theorem applySendResult_stats (g : GPSData) (a : AccelerometerData)
    (result : SendResult) (now : Nat) (persistFirstOk : Bool) (u : UIState) :
    ((applySendResult g a result now persistFirstOk u).1).transmissionStats
      = updateStats u.transmissionStats result.success := by
  rcases result with ⟨succ, err⟩
  cases succ <;> rfl

/-- Completing a send always sets the connection status from the result. -/
theorem applySendResult_connection (g : GPSData) (a : AccelerometerData)
    (result : SendResult) (now : Nat) (persistFirstOk : Bool) (u : UIState) :
    ((applySendResult g a result now persistFirstOk u).1).connectionStatus
      = (if result.success then ConnectionStatus.connected else .disconnected) := by
  rcases result with ⟨succ, err⟩
  cases succ <;> rfl

/-- Claim C9: for every target address, `testConnection` returns exactly the
result of `sendData` applied to the all-zero sample (latitude 0, longitude
0, accuracy null, acceleration x = y = z = 0, stamped with the current time)
and that address. -/
theorem c9_testConnection_is_zero_sample_send (ipAddress : String) (now : Nat)
    (env : NetEnv) :
    ESP32Client.testConnection ipAddress now env
      = ESP32Client.sendData
          { gps := { latitude := 0, longitude := 0, accuracy := none },
            accelerometer := { x := 0, y := 0, z := 0 },
            timestamp := now }
          ipAddress env :=
  rfl

/-- Claim C6: a tick at which the location sample or the motion sample is
missing is skipped silently: the component state (hence the statistics and
the recorded outcome) is unchanged and no persistence request is made. -/
theorem c6_missing_sample_skips_tick (esp32Client : Bool) (gpsData : Option GPSData)
    (accelerometerData : Option AccelerometerData) (env : NetEnv) (now : Nat)
    (persistFirstOk : Bool) (s : UIState)
    (h : gpsData = none ∨ accelerometerData = none) :
    sendDataToESP32 esp32Client gpsData accelerometerData env now persistFirstOk s
      = (s, []) := by
  rcases h with h | h
  · subst h
    cases esp32Client <;> cases accelerometerData <;> rfl
  · subst h
    cases esp32Client <;> cases gpsData <;> rfl

/-- Witness for C6 at a concrete missing location sample. -/
theorem c6_missing_sample_skips_tick_witness :
    ((none : Option GPSData) = none ∨ (some aSample : Option AccelerometerData) = none) ∧
    sendDataToESP32 true none (some aSample) dualFailEnv 0 true initialUIState
      = (initialUIState, []) :=
  ⟨Or.inl rfl,
   c6_missing_sample_skips_tick true none (some aSample) dualFailEnv 0 true
     initialUIState (Or.inl rfl)⟩

/-- Claim C8: when the `limit` query parameter is absent, not parseable as an
integer, or parses to 0, the `GET /api/sensor-data` handler uses the default
limit 10. -/
theorem c8_default_limit (q : Option String)
    (h : q = none ∨ jsParseInt q = none ∨ jsParseInt q = some 0) :
    sensorDataRouteLimit q = 10 := by
  rcases h with rfl | h | h
  · decide
  · simp [sensorDataRouteLimit, jsOrInt, h]
  · simp [sensorDataRouteLimit, jsOrInt, h]

/-- Witness for C8 at the concrete unparseable parameter `abc`. -/
theorem c8_default_limit_witness :
    (some "abc" = (none : Option String) ∨ jsParseInt (some "abc") = none ∨
      jsParseInt (some "abc") = some 0) ∧
    sensorDataRouteLimit (some "abc") = 10 :=
  ⟨Or.inr (Or.inl (by decide)),
   c8_default_limit (some "abc") (Or.inr (Or.inl (by decide)))⟩

/-- Claim C5: when the direct call fails and the relay fallback reports
success, `sendData` returns success with no error field. -/
theorem c5_relay_success_reports_success (data : ESP32Data) (ipAddress : String)
    (env : NetEnv) (m : String) (esp32Fetch : Except String Nat)
    (hdirect : directFailMsg env ipAddress data = some m)
    (hproxy : env.proxy ipAddress data = .ok esp32Fetch)
    (hrelay : relayError esp32Fetch = none) :
    ESP32Client.sendData data ipAddress env = { success := true, error := none } := by
  unfold ESP32Client.sendData apiRequestTestEsp32
  cases hdir : env.direct ipAddress data with
  | ok status =>
      rw [directFailMsg, hdir] at hdirect
      by_cases hok : statusOk status
      · simp [hok] at hdirect
      · cases esp32Fetch with
        | ok s2 =>
            rw [relayError] at hrelay
            by_cases hok2 : statusOk s2
            · simp [hok, hproxy, testEsp32Route, hok2]
            · simp [hok2] at hrelay
        | error m2 => simp [relayError] at hrelay
  | error m2 =>
      cases esp32Fetch with
      | ok s2 =>
          rw [relayError] at hrelay
          by_cases hok2 : statusOk s2
          · simp [hproxy, testEsp32Route, hok2]
          · simp [hok2] at hrelay
      | error m3 => simp [relayError] at hrelay

/-- Witness for C5: direct fetch faults with `boom`, relay's own fetch gets
HTTP 200. -/
theorem c5_relay_success_reports_success_witness :
    directFailMsg relayOkEnv "192.168.1.50" dataSample = some "boom" ∧
    relayOkEnv.proxy "192.168.1.50" dataSample = .ok (.ok 200) ∧
    relayError (.ok 200) = none ∧
    ESP32Client.sendData dataSample "192.168.1.50" relayOkEnv
      = { success := true, error := none } :=
  ⟨by decide, rfl, by decide,
   c5_relay_success_reports_success dataSample "192.168.1.50" relayOkEnv "boom"
     (.ok 200) (by decide) rfl (by decide)⟩

/-- Counterexample to claim C4 as stated: when the direct call fails with a
message containing `CORS` and the relay call itself faults (so the relay
reported no error), the returned error is the fixed CORS explanation, not
the original direct-call error message. -/
theorem c4_error_preference_counterexample :
    directFailMsg corsFailEnv "192.168.1.50" dataSample
      = some "CORS policy blocked the request" ∧
    corsFailEnv.proxy "192.168.1.50" dataSample = .error "proxy down" ∧
    ESP32Client.sendData dataSample "192.168.1.50" corsFailEnv
      = { success := false,
          error := some "CORS error - ESP32 may not allow browser requests" } ∧
    (ESP32Client.sendData dataSample "192.168.1.50" corsFailEnv).error
      ≠ some "CORS policy blocked the request" :=
  ⟨by decide, rfl, by decide, by decide⟩

/-- Claim C4 (amended): when both the direct call and the relay fallback
fail, the result reports failure; its error message is the relay's reported
error when the relay responded, and otherwise (the relay call itself
faulted) the original direct-call error message — except that a direct-call
message containing `CORS` is replaced by the fixed message
`CORS error - ESP32 may not allow browser requests`. -/
theorem c4_error_preference (data : ESP32Data) (ipAddress : String)
    (env : NetEnv) (m : String)
    (hdirect : directFailMsg env ipAddress data = some m) :
    (∀ esp32Fetch e, env.proxy ipAddress data = .ok esp32Fetch →
        relayError esp32Fetch = some e →
        ESP32Client.sendData data ipAddress env
          = { success := false, error := some e }) ∧
    (∀ pm, env.proxy ipAddress data = .error pm →
        ESP32Client.sendData data ipAddress env
          = { success := false,
              error := some (if includesCORS m then
                "CORS error - ESP32 may not allow browser requests" else m) }) := by
  constructor
  · intro esp32Fetch e hproxy hrelay
    unfold ESP32Client.sendData apiRequestTestEsp32
    cases hdir : env.direct ipAddress data with
    | ok status =>
        rw [directFailMsg, hdir] at hdirect
        by_cases hok : statusOk status
        · simp [hok] at hdirect
        · cases esp32Fetch with
          | ok s2 =>
              rw [relayError] at hrelay
              by_cases hok2 : statusOk s2
              · simp [hok2] at hrelay
              · simp [hok, hproxy, testEsp32Route, hok2]
                simp [hok2] at hrelay
                exact hrelay
          | error m2 =>
              rw [relayError] at hrelay
              simp at hrelay
              simp [hok, hproxy, testEsp32Route]
              exact hrelay
    | error m2 =>
        cases esp32Fetch with
        | ok s2 =>
            rw [relayError] at hrelay
            by_cases hok2 : statusOk s2
            · simp [hok2] at hrelay
            · simp [hproxy, testEsp32Route, hok2]
              simp [hok2] at hrelay
              exact hrelay
        | error m3 =>
            rw [relayError] at hrelay
            simp at hrelay
            simp [hproxy, testEsp32Route]
            exact hrelay
  · intro pm hproxy
    unfold ESP32Client.sendData apiRequestTestEsp32
    cases hdir : env.direct ipAddress data with
    | ok status =>
        rw [directFailMsg, hdir] at hdirect
        by_cases hok : statusOk status
        · simp [hok] at hdirect
        · simp [hok] at hdirect
          simp [hok, hproxy, ← hdirect]
    | error m2 =>
        rw [directFailMsg, hdir] at hdirect
        simp at hdirect
        subst hdirect
        simp [hproxy]

/-- Witness for C4 (amended) at both failure shapes: relay responds with a
reported error `relay down`, and relay faults outright with the direct
message `boom`. -/
theorem c4_error_preference_witness :
    (directFailMsg dualFailEnv "192.168.1.50" dataSample = some "boom" ∧
     dualFailEnv.proxy "192.168.1.50" dataSample = .ok (.error "relay down") ∧
     relayError (.error "relay down") = some "relay down" ∧
     ESP32Client.sendData dataSample "192.168.1.50" dualFailEnv
       = { success := false, error := some "relay down" }) ∧
    (directFailMsg proxyDownEnv "192.168.1.50" dataSample = some "boom" ∧
     proxyDownEnv.proxy "192.168.1.50" dataSample = .error "proxy down" ∧
     ESP32Client.sendData dataSample "192.168.1.50" proxyDownEnv
       = { success := false,
           error := some (if includesCORS "boom" then
             "CORS error - ESP32 may not allow browser requests" else "boom") }) :=
  ⟨⟨by decide, rfl, by decide,
    (c4_error_preference dataSample "192.168.1.50" dualFailEnv "boom" (by decide)).1
      (.error "relay down") "relay down" rfl (by decide)⟩,
   ⟨by decide, rfl,
    (c4_error_preference dataSample "192.168.1.50" proxyDownEnv "boom" (by decide)).2
      "proxy down" rfl⟩⟩

/-- Claim C3: from idle, the start toggle succeeds only when both sensor
permissions are granted (requests are made first for any permission not yet
granted); whenever either permission ends up denied the transition is
refused, the `Sensor permissions required` error is surfaced and the state
stays idle — in particular when the location permission was already denied
before the press. -/
theorem c3_start_requires_permissions (gpsOutcome motionOutcome : Option String)
    (s : UIState) (hidle : s.isTransmitting = false) :
    ((toggleTransmission gpsOutcome motionOutcome s).isTransmitting = true →
        s.permissions.gps = .granted ∧ s.permissions.motion = .granted ∧
        (toggleTransmission gpsOutcome motionOutcome s).permissions.gps = .granted ∧
        (toggleTransmission gpsOutcome motionOutcome s).permissions.motion = .granted) ∧
    (((toggleTransmission gpsOutcome motionOutcome s).permissions.gps = .denied ∨
      (toggleTransmission gpsOutcome motionOutcome s).permissions.motion = .denied) →
        (toggleTransmission gpsOutcome motionOutcome s).isTransmitting = false ∧
        (toggleTransmission gpsOutcome motionOutcome s).statusMessage
          = some (.error, "Sensor permissions required")) ∧
    (s.permissions.gps = .denied →
        (toggleTransmission gpsOutcome motionOutcome s).isTransmitting = false ∧
        (toggleTransmission gpsOutcome motionOutcome s).statusMessage
          = some (.error, "Sensor permissions required")) := by
  unfold toggleTransmission
  rw [if_pos hidle]
  by_cases hg : s.permissions.gps = .granted <;>
    by_cases hm : s.permissions.motion = .granted <;>
      cases gpsOutcome <;> cases motionOutcome <;>
        simp [hg, hm, hidle, requestGPSPermission, requestMotionPermission]

/-- Witness for C3 at a concrete state whose location permission is denied
before the press. -/
theorem c3_start_requires_permissions_witness :
    deniedGpsState.isTransmitting = false ∧
    deniedGpsState.permissions.gps = .denied ∧
    (toggleTransmission none none deniedGpsState).isTransmitting = false ∧
    (toggleTransmission none none deniedGpsState).statusMessage
      = some (.error, "Sensor permissions required") :=
  ⟨rfl, rfl,
   ((c3_start_requires_permissions none none deniedGpsState rfl).2.2 rfl).1,
   ((c3_start_requires_permissions none none deniedGpsState rfl).2.2 rfl).2⟩

/-- Counterexample to claim C2 as stated: after the run `stopWhileInFlight`
(start transmitting, let one tick initiate a send, press stop), the loop is
idle, disconnected, with zero recorded transmissions and one send still in
flight — yet when that send completes, the connection state becomes
`connected` and the statistics are incremented: the in-flight result is not
discarded after stop. -/
theorem c2_stop_discards_counterexample :
    (loopRun initialLoopState stopWhileInFlight).ui.isTransmitting = false ∧
    (loopRun initialLoopState stopWhileInFlight).ui.connectionStatus = .disconnected ∧
    (loopRun initialLoopState stopWhileInFlight).ui.transmissionStats.totalTransmissions = 0 ∧
    (loopRun initialLoopState stopWhileInFlight).pendingSends = 1 ∧
    (loopStep (loopRun initialLoopState stopWhileInFlight)
        (.sendComplete gSample aSample ⟨true, none⟩ 5 true)).ui.connectionStatus
      = .connected ∧
    (loopStep (loopRun initialLoopState stopWhileInFlight)
        (.sendComplete gSample aSample ⟨true, none⟩ 5 true)).ui.transmissionStats.totalTransmissions
      = 1 := by
  decide

/-- Claim C2 (amended): after the loop stops, no tick initiates a send or
changes any state; but a send initiated before the stop that completes
afterward still applies its result to the connection state and to the
statistics — the source re-checks nothing after the `await`, so the result
is not discarded. -/
theorem c2_stop_halts_scheduling_but_not_completions (s : LoopState)
    (result : SendResult) (g : GPSData) (a : AccelerometerData) (now : Nat)
    (persistFirstOk : Bool) (esp32Client : Bool) (gpsData : Option GPSData)
    (accelerometerData : Option AccelerometerData)
    (hstop : s.ui.isTransmitting = false) (hpend : 0 < s.pendingSends) :
    loopStep s (.tick esp32Client gpsData accelerometerData) = s ∧
    (loopStep s (.sendComplete g a result now persistFirstOk)).ui.transmissionStats.totalTransmissions
      = s.ui.transmissionStats.totalTransmissions + 1 ∧
    (loopStep s (.sendComplete g a result now persistFirstOk)).ui.connectionStatus
      = (if result.success then ConnectionStatus.connected else .disconnected) := by
  have h0 : ¬ s.pendingSends = 0 := by omega
  refine ⟨?_, ?_, ?_⟩
  · cases esp32Client <;> cases gpsData <;> cases accelerometerData <;>
      simp [loopStep, hstop]
  · simp [loopStep, h0, applySendResult_stats, updateStats]
  · simp [loopStep, h0, applySendResult_connection]

/-- Witness for C2 (amended) at a concrete stopped state with one send in
flight. -/
theorem c2_stop_halts_scheduling_but_not_completions_witness :
    (stoppedPending.ui.isTransmitting = false ∧ 0 < stoppedPending.pendingSends) ∧
    (loopStep stoppedPending (.tick true (some gSample) (some aSample)) = stoppedPending ∧
     (loopStep stoppedPending
         (.sendComplete gSample aSample ⟨true, none⟩ 5 true)).ui.transmissionStats.totalTransmissions
       = stoppedPending.ui.transmissionStats.totalTransmissions + 1 ∧
     (loopStep stoppedPending
         (.sendComplete gSample aSample ⟨true, none⟩ 5 true)).ui.connectionStatus
       = (if (⟨true, none⟩ : SendResult).success then ConnectionStatus.connected
          else .disconnected)) :=
  ⟨⟨rfl, by decide⟩,
   c2_stop_halts_scheduling_but_not_completions stoppedPending ⟨true, none⟩ gSample
     aSample 5 true true (some gSample) (some aSample) rfl (by decide)⟩

/-- The statistics updater preserves the statistics invariant. -/
theorem statsInvariant_updateStats {st : TransmissionStats} (h : statsInvariant st)
    (b : Bool) : statsInvariant (updateStats st b) := by
  obtain ⟨h1, h2⟩ := h
  constructor
  · cases b <;> simp [updateStats] <;> omega
  · simp [statsInvariant, updateStats]

/-- The start/stop toggle never touches the statistics. -/
theorem toggleTransmission_stats (o1 o2 : Option String) (u : UIState) :
    (toggleTransmission o1 o2 u).transmissionStats = u.transmissionStats := by
  unfold toggleTransmission
  by_cases ht : u.isTransmitting = false
  · rw [if_pos ht]
    by_cases hg : u.permissions.gps = .granted <;>
      by_cases hm : u.permissions.motion = .granted <;>
        cases o1 <;> cases o2 <;>
          simp [hg, hm, requestGPSPermission, requestMotionPermission]
  · rw [if_neg ht]

/-- Every loop event preserves the statistics invariant. -/
theorem loopStep_statsInvariant {s : LoopState}
    (h : statsInvariant s.ui.transmissionStats) (e : LoopEvent) :
    statsInvariant (loopStep s e).ui.transmissionStats := by
  cases e with
  | tick c g a =>
      cases hb : s.ui.isTransmitting <;> cases c <;> cases g <;> cases a <;>
        simp [loopStep, hb, h]
  | sendComplete g a r now p1 =>
      by_cases hp : s.pendingSends = 0
      · simpa [loopStep, hp] using h
      · simpa [loopStep, hp, applySendResult_stats] using
          statsInvariant_updateStats h r.success
  | toggle o1 o2 =>
      simpa [loopStep, toggleTransmission_stats] using h

/-- The statistics invariant is preserved along any run of the loop. -/
theorem loopRun_statsInvariant (s : LoopState) (events : List LoopEvent)
    (h : statsInvariant s.ui.transmissionStats) :
    statsInvariant (loopRun s events).ui.transmissionStats := by
  induction events generalizing s with
  | nil => exact h
  | cons e es ih => exact ih _ (loopStep_statsInvariant h e)

/-- Claim C1: after every sequence of loop events the in-memory statistics
satisfy `successful <= total` and `success_rate = successful/total*100` when
`total > 0`, else `0`; and the statistics the store computes from its logs
satisfy the same formula. -/
theorem c1_statistics_invariant :
    (∀ events : List LoopEvent,
        statsInvariant (loopRun initialLoopState events).ui.transmissionStats) ∧
    (∀ s : MemStorage,
        (s.getTransmissionStats).successfulTransmissions
          ≤ (s.getTransmissionStats).totalTransmissions ∧
        (s.getTransmissionStats).successRate
          = if 0 < (s.getTransmissionStats).totalTransmissions then
              ((s.getTransmissionStats).successfulTransmissions : ℚ)
                / ((s.getTransmissionStats).totalTransmissions : ℚ) * 100
            else 0) := by
  constructor
  · intro events
    exact loopRun_statsInvariant _ _
      (by simp [statsInvariant, initialLoopState, initialUIState, initialStats])
  · intro s
    constructor
    · simpa [MemStorage.getTransmissionStats] using
        List.length_filter_le (fun log => log.success) (s.transmissionLogs.map Prod.snd)
    · rfl

/-- `Map.set` at a fresh key appends the binding, touching nothing. -/
theorem mapSet_append {β : Type} (m : List (Nat × β)) (k : Nat) (v : β)
    (h : k ∉ m.map Prod.fst) : mapSet m k v = m ++ [(k, v)] := by
  unfold mapSet
  rw [if_neg h]

/-- A key list of the shape `1 .. n` with counter `n + 1` is well formed. -/
theorem idsOk_of_range (keys : List Nat) (n : Nat) (hk : keys = List.range' 1 n) :
    idsOk keys (n + 1) := by
  subst hk
  refine ⟨by simp, by omega, List.pairwise_lt_range' 1 n, ?_⟩
  rw [List.mem_range'_1]
  omega

/-- Every create operation preserves the core id invariant. -/
theorem applyOp_rangeInvariant (s : MemStorage) (op : StorageOp)
    (h : rangeInvariant s) : rangeInvariant (applyOp s op) := by
  obtain ⟨⟨nu, hcu, hku⟩, ⟨ns, hcs, hks⟩, ⟨nt, hct, hkt⟩⟩ := h
  cases op with
  | createUser u =>
      have hfresh : s.currentUserId ∉ s.users.map Prod.fst := by
        rw [hku, List.mem_range'_1]; omega
      refine ⟨⟨nu + 1, ?_, ?_⟩, ⟨ns, hcs, hks⟩, ⟨nt, hct, hkt⟩⟩
      · simp [applyOp, MemStorage.createUser, hcu]
      · simp only [applyOp, MemStorage.createUser]
        rw [mapSet_append _ _ _ hfresh, List.map_append, hku]
        simp [hcu, List.range'_1_concat, Nat.add_comm]
  | createSensorData d now =>
      have hfresh : s.currentSensorDataId ∉ s.sensorData.map Prod.fst := by
        rw [hks, List.mem_range'_1]; omega
      refine ⟨⟨nu, hcu, hku⟩, ⟨ns + 1, ?_, ?_⟩, ⟨nt, hct, hkt⟩⟩
      · simp [applyOp, MemStorage.createSensorData, hcs]
      · simp only [applyOp, MemStorage.createSensorData]
        rw [mapSet_append _ _ _ hfresh, List.map_append, hks]
        simp [hcs, List.range'_1_concat, Nat.add_comm]
  | createTransmissionLog l now =>
      have hfresh : s.currentTransmissionLogId ∉ s.transmissionLogs.map Prod.fst := by
        rw [hkt, List.mem_range'_1]; omega
      refine ⟨⟨nu, hcu, hku⟩, ⟨ns, hcs, hks⟩, ⟨nt + 1, ?_, ?_⟩⟩
      · simp [applyOp, MemStorage.createTransmissionLog, hct]
      · simp only [applyOp, MemStorage.createTransmissionLog]
        rw [mapSet_append _ _ _ hfresh, List.map_append, hkt]
        simp [hct, List.range'_1_concat, Nat.add_comm]

/-- The core id invariant holds after any run of create operations. -/
theorem runOps_rangeInvariant (ops : List StorageOp) :
    rangeInvariant (runOps ops) := by
  have key : ∀ (l : List StorageOp) (s : MemStorage),
      rangeInvariant s → rangeInvariant (l.foldl applyOp s) := by
    intro l
    induction l with
    | nil => intro s hs; exact hs
    | cons op rest ih => intro s hs; exact ih _ (applyOp_rangeInvariant s op hs)
  exact key ops MemStorage.init ⟨⟨0, rfl, rfl⟩, ⟨0, rfl, rfl⟩, ⟨0, rfl, rfl⟩⟩

/-- Claim C10: after any sequence of create operations, each record kind's
ids start at 1, are strictly increasing (hence unique) in insertion order,
the next id to be assigned is fresh, and consequently every further create
appends a new binding instead of overwriting an existing record. -/
theorem c10_create_ids_fresh_and_increasing (ops : List StorageOp) :
    idsOk ((runOps ops).users.map Prod.fst) (runOps ops).currentUserId ∧
    idsOk ((runOps ops).sensorData.map Prod.fst) (runOps ops).currentSensorDataId ∧
    idsOk ((runOps ops).transmissionLogs.map Prod.fst)
      (runOps ops).currentTransmissionLogId ∧
    ∀ op, noOverwriteStep (runOps ops) op := by
  obtain ⟨⟨nu, hcu, hku⟩, ⟨ns, hcs, hks⟩, ⟨nt, hct, hkt⟩⟩ := runOps_rangeInvariant ops
  refine ⟨?_, ?_, ?_, ?_⟩
  · rw [hcu]; exact idsOk_of_range _ nu hku
  · rw [hcs]; exact idsOk_of_range _ ns hks
  · rw [hct]; exact idsOk_of_range _ nt hkt
  · intro op
    cases op with
    | createUser u =>
        have hfresh : (runOps ops).currentUserId ∉ (runOps ops).users.map Prod.fst := by
          rw [hku, hcu, List.mem_range'_1]; omega
        show (applyOp (runOps ops) (.createUser u)).users = _
        simp [applyOp, MemStorage.createUser, mapSet_append _ _ _ hfresh]
    | createSensorData d now =>
        have hfresh : (runOps ops).currentSensorDataId
            ∉ (runOps ops).sensorData.map Prod.fst := by
          rw [hks, hcs, List.mem_range'_1]; omega
        show (applyOp (runOps ops) (.createSensorData d now)).sensorData = _
        simp [applyOp, MemStorage.createSensorData, mapSet_append _ _ _ hfresh]
    | createTransmissionLog l now =>
        have hfresh : (runOps ops).currentTransmissionLogId
            ∉ (runOps ops).transmissionLogs.map Prod.fst := by
          rw [hkt, hct, List.mem_range'_1]; omega
        show (applyOp (runOps ops) (.createTransmissionLog l now)).transmissionLogs = _
        simp [applyOp, MemStorage.createTransmissionLog, mapSet_append _ _ _ hfresh]

/-- Claim C7: for every stored set of samples and every `n`,
`getRecentSensorData n` returns the `n` most recent samples, newest first:
its length is `min n` of the store size, it is ordered by non-increasing
timestamp, and together with the left-over samples it is a permutation of
the store in which every left-over sample is at most as recent as every
returned one. -/
theorem c7_recent_sensor_data (s : MemStorage) (n : Nat) :
    (s.getRecentSensorData n).length = min n (s.sensorData.map Prod.snd).length ∧
    (s.getRecentSensorData n).Pairwise (fun a b => b.timestamp ≤ a.timestamp) ∧
    List.Perm
      (s.getRecentSensorData n
        ++ (sortByTimestampDesc (s.sensorData.map Prod.snd)).drop n)
      (s.sensorData.map Prod.snd) ∧
    ((sortByTimestampDesc (s.sensorData.map Prod.snd)).drop n).all
      (fun y => (s.getRecentSensorData n).all
        (fun x => decide (y.timestamp ≤ x.timestamp))) = true := by
  have hsorted : (sortByTimestampDesc (s.sensorData.map Prod.snd)).Pairwise
      (fun a b => decide (b.timestamp ≤ a.timestamp) = true) := by
    apply List.sorted_mergeSort
    · intro a b c hab hbc
      simp only [decide_eq_true_eq] at hab hbc ⊢
      omega
    · intro a b
      simp only [Bool.or_eq_true, decide_eq_true_eq]
      exact Nat.le_total b.timestamp a.timestamp
  have hperm : List.Perm (sortByTimestampDesc (s.sensorData.map Prod.snd))
      (s.sensorData.map Prod.snd) :=
    List.mergeSort_perm _ _
  have hsplit := List.pairwise_append.mp
    (by rw [List.take_append_drop
        n (sortByTimestampDesc (s.sensorData.map Prod.snd))]; exact hsorted)
  refine ⟨?_, ?_, ?_, ?_⟩
  · show ((sortByTimestampDesc (s.sensorData.map Prod.snd)).take n).length = _
    rw [List.length_take, hperm.length_eq]
  · exact hsplit.1.imp (fun h => of_decide_eq_true h)
  · show List.Perm ((sortByTimestampDesc (s.sensorData.map Prod.snd)).take n
        ++ (sortByTimestampDesc (s.sensorData.map Prod.snd)).drop n) _
    rw [List.take_append_drop]
    exact hperm
  · simp only [List.all_eq_true]
    intro y hy x hx
    exact hsplit.2.2 x hx y hy

end Esp32Geo
